import Mathlib

/-!
# savanna websocket session

A shallow embedding of `include/savanna/websocket.hpp` (`m2d::savanna::websocket`):
the `state` enumeration, the `session<T>` class with `set_current_state`,
`make_connection` (both overloads), `run`, `send`, `close`, `on_message` and
`current_state`, followed by theorems about the connection state machine of the session.

The session is a thin layer over a Boost.Beast websocket stream, a resolver and two
user callbacks.  None of those are part of the header, so they are modelled as an
environment:

* every blocking call on the resolver or the stream takes the `error_code` the call
  produces as an explicit argument (`setup_outcomes`, `read_outcome`, the `w` of `send`,
  the `c` of `close`); the throwing overloads used during setup raise a
  `system_error` exactly when that code is a failure;
* the user callbacks (`state_changed`, the message handler) are observers: calling one
  appends an `event` to the `trace` of the session, and the stream operations issued by the
  session are recorded the same way, so "how often" and "in which order" are statements
  about the trace;
* the only stream state kept is what `is_open()` reports and whether a control callback
  has been installed.  A stream is open once its websocket handshake has succeeded and is
  no longer open once `close` has been called on it; what it reports after a read or a
  write is part of the outcome of that call.
-/

namespace savanna
namespace websocket

/-- Payload bytes (a `std::string` or the readable bytes of a `beast::flat_buffer`). -/
abbrev bytes := List Nat

/-- The enumeration `websocket::state`. -/
inductive state where
  | unknown
  | closed
  | connected
  deriving DecidableEq, Repr

/-- The enumeration `beast::websocket::frame_type` passed to a control callback. -/
inductive frame_type where
  | close
  | ping
  | pong
  deriving DecidableEq, Repr

/-- The two stream types `session<T>` can be instantiated with: only these have a
`make_connection` overload. -/
inductive stream_kind where
  | raw_stream
  | tls_stream
  deriving DecidableEq, Repr

/-- A `boost::system::error_code`: a value within a category.  The default-constructed
code is value `0` in the system category (category `0` here). -/
structure error_code where
  value : Int
  category : Nat
  deriving DecidableEq, Repr

/-- The default-constructed `boost::system::error_code ec;`. -/
def error_code.success : error_code := { value := 0, category := 0 }

/-- The member `error_code::failed()`: a code is a failure when its value is not zero. -/
def error_code.failed (ec : error_code) : Bool := ec.value != 0

/-- Everything the session does that is visible from outside: the operations it issues
on the resolver and on the stream, and the callbacks it invokes. -/
inductive event where
  | resolve
  | connect
  | set_option
  | tls_handshake
  | handshake (path : bytes)
  | install_control_callback
  | read
  | write (data : bytes)
  | stream_close
  | state_changed (s : state)
  | message (handler : Nat) (buffer : bytes)
  deriving DecidableEq, Repr

/-- The part of the Beast websocket stream `stream_` the session depends on: its static
type, what `is_open()` reports, and whether `control_callback(...)` has been installed. -/
structure stream where
  kind : stream_kind
  is_open : Bool
  has_control_callback : Bool
  deriving DecidableEq, Repr

/-- The class `session<T>`: the stream, the optional message handler (a handler is
identified by a number), the recorded state, and the trace of events so far. -/
structure session where
  stream_ : stream
  on_message_handler_ : Option Nat
  current_state_ : state
  trace : List event
  deriving DecidableEq, Repr

/-- How a member function ends: it returns an error code, or a
`boost::system::system_error` carrying the code `e` leaves it. -/
inductive completion where
  | returned (ec : error_code)
  | raised (e : error_code)
  deriving DecidableEq, Repr

/-- The codes the blocking setup calls produce: `ws_resolver_.resolve`, `net::connect`,
the TLS client handshake of the next layer, and the websocket opening handshake. -/
structure setup_outcomes where
  resolve : error_code
  connect : error_code
  tls_handshake : error_code
  handshake : error_code
  deriving DecidableEq, Repr

/-- What one blocking `stream_.read(buffer, ec)` produces: the control frames received
while it was blocked (Beast hands each to the installed control callback, in order,
before the read completes), the code left in `ec`, the bytes left in `buffer`, and what
`is_open()` reports afterwards. -/
structure read_outcome where
  control : List frame_type
  ec : error_code
  buffer : bytes
  open_after : Bool
  deriving DecidableEq, Repr

/-- What one blocking `stream_.write(buffer, ec)` produces: the code left in `ec` and what
`is_open()` reports afterwards. -/
structure write_outcome where
  ec : error_code
  open_after : Bool
  deriving DecidableEq, Repr

/-- The constructor `session(resolver, stream, url)`: `current_state_ = unknown`, no handler,
a stream that is not connected, nothing observed yet. -/
def session.create (kind : stream_kind) : session :=
  { stream_ := { kind := kind, is_open := false, has_control_callback := false }
    on_message_handler_ := none
    current_state_ := state.unknown
    trace := [] }

/-- Append an event to the trace. -/
def session.record (s : session) (e : event) : session :=
  { s with trace := s.trace ++ [e] }

/-- The member `set_current_state(s)`: `current_state_ = s; state_changed(s);`. -/
def session.set_current_state (s : session) (st : state) : session :=
  ({ s with current_state_ := st }).record (event.state_changed st)

/-- The member `current_state()`. -/
def session.current_state (s : session) : state := s.current_state_

/-- The member `on_message(handler)`: `on_message_handler_ = handler;`. -/
def session.on_message (s : session) (handler : Nat) : session :=
  { s with on_message_handler_ := some handler }

/-- The overload `make_connection(websocket::raw_stream &, results, path)`: `net::connect`,
`set_option(decorator)`, `stream.handshake(host, path)`.  The second component is the
code of the `system_error` that left the function, if one did. -/
def session.make_connection_raw (s : session) (env : setup_outcomes) (path : bytes) :
    session × Option error_code :=
  let s1 := s.record event.connect
  if env.connect.failed then (s1, some env.connect)
  else
    let s2 := s1.record event.set_option
    let s3 := s2.record (event.handshake path)
    if env.handshake.failed then (s3, some env.handshake)
    else ({ s3 with stream_ := { s3.stream_ with is_open := true } }, none)

/-- The overload `make_connection(websocket::tls_stream &, results, path)`: as the raw one
with `stream.next_layer().handshake(ssl::stream_base::client)` before the websocket
handshake. -/
def session.make_connection_tls (s : session) (env : setup_outcomes) (path : bytes) :
    session × Option error_code :=
  let s1 := s.record event.connect
  if env.connect.failed then (s1, some env.connect)
  else
    let s2 := s1.record event.set_option
    let s3 := s2.record event.tls_handshake
    if env.tls_handshake.failed then (s3, some env.tls_handshake)
    else
      let s4 := s3.record (event.handshake path)
      if env.handshake.failed then (s4, some env.handshake)
      else ({ s4 with stream_ := { s4.stream_ with is_open := true } }, none)

/-- Overload resolution of `make_connection(stream_, results, path)` on the type of `stream_`. -/
def session.make_connection (s : session) (env : setup_outcomes) (path : bytes) :
    session × Option error_code :=
  match s.stream_.kind with
  | stream_kind.raw_stream => s.make_connection_raw env path
  | stream_kind.tls_stream => s.make_connection_tls env path

/-- The lambda `control_callback` of `run`: a close frame records the state `closed`,
any other kind is ignored. -/
def session.control_callback (s : session) (kind : frame_type) : session :=
  if kind = frame_type.close then s.set_current_state state.closed else s

/-- The body of the `try` block of `run`: resolve, `make_connection`, install the control
callback, `set_current_state(connected)`. -/
def session.run_try (s : session) (env : setup_outcomes) (path : bytes) :
    session × Option error_code :=
  let s1 := s.record event.resolve
  if env.resolve.failed then (s1, some env.resolve)
  else
    match s1.make_connection env path with
    | (s2, some e) => (s2, some e)
    | (s2, none) =>
      let s3 := ({ s2 with stream_ := { s2.stream_ with has_control_callback := true } }).record
        event.install_control_callback
      (s3.set_current_state state.connected, none)

/-- The `try`/`catch` of `run` (everything before the read loop): a `system_error` from the
`try` block is caught, `set_current_state(unknown)` runs, and the error is thrown again. -/
def session.run_setup (s : session) (env : setup_outcomes) (path : bytes) :
    session × Option error_code :=
  match s.run_try env path with
  | (s1, some e) => (s1.set_current_state state.unknown, some e)
  | (s1, none) => (s1, none)

/-- One `stream_.read(buffer, ec)`: the read is issued and the control frames that arrive
while it blocks are handed to the installed control callback. -/
def session.stream_read (s : session) (o : read_outcome) : session :=
  let s1 := s.record event.read
  let s2 := if s1.stream_.has_control_callback then o.control.foldl session.control_callback s1
    else s1
  { s2 with stream_ := { s2.stream_ with is_open := o.open_after } }

/-- The `if (on_message_handler_) { handler(buffer); }` of the loop body: the registered
handler, if there is one, is invoked with the buffer just read. -/
def session.dispatch (s : session) (buffer : bytes) : session :=
  match s.on_message_handler_ with
  | some h => s.record (event.message h buffer)
  | none => s

/-- The `while (true)` loop of `run` against the outcomes of the successive reads.  The loop
ends at the first failed read, with that code and the outcomes not consumed.  A read
that has no outcome never completes, and then neither does the loop (`none`). -/
def session.read_loop (s : session) : List read_outcome →
    Option (session × error_code × List read_outcome)
  | [] => none
  | o :: rest =>
    let s1 := s.stream_read o
    if o.ec.failed then some (s1, o.ec, rest)
    else
      session.read_loop (s1.dispatch o.buffer) rest

/-- What a call of `run` that ends leaves behind: the session, how the call ended, and
the read outcomes it did not consume. -/
structure run_result where
  session : session
  outcome : completion
  unread : List read_outcome
  deriving DecidableEq, Repr

/-- The member `run(path)`: setup, then the read loop; `none` when the call never ends. -/
def session.run (s : session) (env : setup_outcomes) (reads : List read_outcome)
    (path : bytes) : Option run_result :=
  match s.run_setup env path with
  | (s1, some e) => some { session := s1, outcome := completion.raised e, unread := reads }
  | (s1, none) =>
    match s1.read_loop reads with
    | none => none
    | some (s2, ec, rest) =>
      some { session := s2, outcome := completion.returned ec, unread := rest }

/-- The default argument of `run`: `"/"`. -/
def default_path : bytes := [47]

/-- The member `send(data)`: `stream_.write(net::buffer(data), ec); return ec;` where `w` is
what the write produces. -/
def session.send (s : session) (data : bytes) (w : write_outcome) : session × completion :=
  let s1 := s.record (event.write data)
  ({ s1 with stream_ := { s1.stream_ with is_open := w.open_after } }, completion.returned w.ec)

/-- The member `close()`: when `stream_.is_open()`, `stream_.close(normal, ec)` is issued and
leaves `c` in `ec`; a Beast stream on which `close` was called is no longer open.
Otherwise `ec` stays default-constructed. -/
def session.close (s : session) (c : error_code) : session × completion :=
  if s.stream_.is_open then
    let s1 := s.record event.stream_close
    ({ s1 with stream_ := { s1.stream_ with is_open := false } }, completion.returned c)
  else (s, completion.returned error_code.success)

/-! ## Projections of the trace -/

/-- The arguments of the successive `state_changed` invocations. -/
def state_changes (t : List event) : List state :=
  t.filterMap fun e => match e with
    | event.state_changed st => some st
    | _ => none

/-- The successive message-handler invocations: which handler, with which buffer. -/
def handler_calls (t : List event) : List (Nat × bytes) :=
  t.filterMap fun e => match e with
    | event.message h b => some (h, b)
    | _ => none

/-- How many reads were issued on the stream. -/
def read_count (t : List event) : Nat :=
  t.countP fun e => match e with
    | event.read => true
    | _ => false

/-- How many closes were issued on the stream. -/
def stream_close_count (t : List event) : Nat :=
  t.countP fun e => match e with
    | event.stream_close => true
    | _ => false

/-- The `state_changed` events a batch of control frames causes when handed to the control
callback: one per close frame. -/
def close_events (cs : List frame_type) : List event :=
  (cs.filter fun k => k = frame_type.close).map fun _ => event.state_changed state.closed

/-- The reads issued and the message-handler invocations, in the order they happened. -/
def reads_and_handler_calls (t : List event) : List event :=
  t.filter fun e => match e with
    | event.read => true
    | event.message _ _ => true
    | _ => false

/-- The codes of the setup calls `run` makes for a stream of the given kind, in call order. -/
def setup_steps (kind : stream_kind) (env : setup_outcomes) : List error_code :=
  match kind with
  | stream_kind.raw_stream => [env.resolve, env.connect, env.handshake]
  | stream_kind.tls_stream => [env.resolve, env.connect, env.tls_handshake, env.handshake]

/-- A session as `run` leaves it right after a successful setup over a plain stream: state
`connected`, handshake done, stream open, control callback installed. -/
def connected_session : session :=
  ((session.create stream_kind.raw_stream).run_setup
    { resolve := error_code.success, connect := error_code.success,
      tls_handshake := error_code.success, handshake := error_code.success } default_path).1

/-- A failure code, as a transport would report it. -/
def some_failure : error_code := { value := 104, category := 1 }

/-- Setup outcomes of a reachable server: every setup call succeeds. -/
def reachable : setup_outcomes :=
  { resolve := error_code.success, connect := error_code.success,
    tls_handshake := error_code.success, handshake := error_code.success }

/-- Setup outcomes of an unreachable host: the name resolves, `net::connect` fails. -/
def unreachable : setup_outcomes :=
  { resolve := error_code.success, connect := some_failure,
    tls_handshake := error_code.success, handshake := error_code.success }

/-- The text message `"hello"`. -/
def hello : bytes := [104, 101, 108, 108, 111]

/-- One successful read that carries `"hello"` (a ping arrived while it was blocked). -/
def hello_read : read_outcome :=
  { control := [frame_type.ping], ec := error_code.success, buffer := hello, open_after := true }

/-- A read that fails because the peer sent a close frame. -/
def peer_close_read : read_outcome :=
  { control := [frame_type.close], ec := { value := 1, category := 2 }, buffer := [],
    open_after := false }

/-- A read that fails on a transport error, no close frame having arrived. -/
def reset_read : read_outcome :=
  { control := [frame_type.pong], ec := some_failure, buffer := [], open_after := false }

/-! ## Projections and appended events -/

@[simp]
theorem state_changes_append (t u : List event) :
    state_changes (t ++ u) = state_changes t ++ state_changes u := by
  simp [state_changes]

@[simp]
theorem handler_calls_append (t u : List event) :
    handler_calls (t ++ u) = handler_calls t ++ handler_calls u := by
  simp [handler_calls]

@[simp]
theorem read_count_append (t u : List event) :
    read_count (t ++ u) = read_count t + read_count u := by
  simp [read_count]

@[simp]
theorem stream_close_count_append (t u : List event) :
    stream_close_count (t ++ u) = stream_close_count t + stream_close_count u := by
  simp [stream_close_count]

/-! ## The control callback and one read -/

/-- Handing a batch of control frames to the control callback: the state becomes `closed`
when a close frame is among them, and one `state_changed(closed)` is recorded per close
frame. -/
theorem foldl_control_callback (cs : List frame_type) (s : session) :
    cs.foldl session.control_callback s =
      { s with
        current_state_ := if frame_type.close ∈ cs then state.closed else s.current_state_
        trace := s.trace ++ close_events cs } := by
  induction cs generalizing s with
  | nil => simp [close_events]
  | cons k ks ih =>
    rw [List.foldl_cons, ih]
    cases k <;>
      simp [session.control_callback, session.set_current_state, session.record, close_events]

/-- One read on a stream whose control callback is installed, in closed form. -/
theorem stream_read_eq (s : session) (o : read_outcome)
    (hcb : s.stream_.has_control_callback = true) :
    s.stream_read o =
      { s with
        stream_ := { s.stream_ with is_open := o.open_after }
        current_state_ :=
          if frame_type.close ∈ o.control then state.closed else s.current_state_
        trace := s.trace ++ event.read :: close_events o.control } := by
  rcases s with ⟨⟨k, op, cb⟩, h, st, t⟩
  simp only at hcb
  subst hcb
  unfold session.stream_read
  simp [session.record, foldl_control_callback]


@[simp]
theorem reads_and_handler_calls_append (t u : List event) :
    reads_and_handler_calls (t ++ u) = reads_and_handler_calls t ++ reads_and_handler_calls u := by
  simp [reads_and_handler_calls]

@[simp]
theorem state_changes_cons (e : event) (t : List event) :
    state_changes (e :: t) =
      (match e with
        | event.state_changed st => [st]
        | _ => []) ++ state_changes t := by
  cases e <;> simp [state_changes]

@[simp]
theorem handler_calls_cons (e : event) (t : List event) :
    handler_calls (e :: t) =
      (match e with
        | event.message h b => [(h, b)]
        | _ => []) ++ handler_calls t := by
  cases e <;> simp [handler_calls]

@[simp]
theorem read_count_cons (e : event) (t : List event) :
    read_count (e :: t) =
      (match e with
        | event.read => 1
        | _ => 0) + read_count t := by
  cases e <;> simp [read_count, Nat.add_comm]

@[simp]
theorem reads_and_handler_calls_cons (e : event) (t : List event) :
    reads_and_handler_calls (e :: t) =
      (match e with
        | event.read => [e]
        | event.message _ _ => [e]
        | _ => []) ++ reads_and_handler_calls t := by
  cases e <;> simp [reads_and_handler_calls]

@[simp]
theorem state_changes_nil : state_changes [] = [] := rfl

@[simp]
theorem handler_calls_nil : handler_calls [] = [] := rfl

@[simp]
theorem read_count_nil : read_count [] = 0 := rfl

@[simp]
theorem reads_and_handler_calls_nil : reads_and_handler_calls [] = [] := rfl

/-- Unfolding `close_events` by one control frame. -/
theorem close_events_cons (k : frame_type) (ks : List frame_type) :
    close_events (k :: ks) =
      (if k = frame_type.close then [event.state_changed state.closed] else [])
        ++ close_events ks := by
  cases k <;> simp [close_events]

@[simp]
theorem handler_calls_close_events (cs : List frame_type) :
    handler_calls (close_events cs) = [] := by
  induction cs with
  | nil => rfl
  | cons k ks ih => cases k <;> simp [close_events_cons, ih]

@[simp]
theorem read_count_close_events (cs : List frame_type) :
    read_count (close_events cs) = 0 := by
  induction cs with
  | nil => rfl
  | cons k ks ih => cases k <;> simp [close_events_cons, ih]

@[simp]
theorem reads_and_handler_calls_close_events (cs : List frame_type) :
    reads_and_handler_calls (close_events cs) = [] := by
  induction cs with
  | nil => rfl
  | cons k ks ih => cases k <;> simp [close_events_cons, ih]

/-- Control frames without a close frame cause no event. -/
theorem close_events_of_no_close (cs : List frame_type) (h : frame_type.close ∉ cs) :
    close_events cs = [] := by
  induction cs with
  | nil => rfl
  | cons k ks ih =>
    simp only [List.mem_cons, not_or] at h
    rw [close_events_cons, ih h.2]
    simp [Ne.symm h.1]

/-- The read loop against successful reads followed by a failing one: it ends with the code
of the failing read, leaves the later outcomes unconsumed, invokes the registered handler
once per successful read, and touches the recorded state only through close frames. -/
theorem read_loop_until_failure (oks : List read_outcome) (bad : read_outcome)
    (rest : List read_outcome) (s : session)
    (hcb : s.stream_.has_control_callback = true)
    (hok : ∀ o ∈ oks, o.ec.failed = false) (hbad : bad.ec.failed = true) :
    ∃ s1, s.read_loop (oks ++ bad :: rest) = some (s1, bad.ec, rest) ∧
      s1.on_message_handler_ = s.on_message_handler_ ∧
      handler_calls s1.trace = handler_calls s.trace ++
        (match s.on_message_handler_ with
          | some h => oks.map fun o => (h, o.buffer)
          | none => []) ∧
      read_count s1.trace = read_count s.trace + (oks.length + 1) ∧
      reads_and_handler_calls s1.trace = reads_and_handler_calls s.trace ++
        (match s.on_message_handler_ with
          | some h => oks.flatMap fun o => [event.read, event.message h o.buffer]
          | none => oks.map fun _ => event.read) ++ [event.read] ∧
      ((∀ o ∈ oks, frame_type.close ∉ o.control) → frame_type.close ∉ bad.control →
        s1.current_state_ = s.current_state_ ∧
        state_changes s1.trace = state_changes s.trace) := by
  induction oks generalizing s with
  | nil =>
    refine ⟨s.stream_read bad, ?_, ?_, ?_, ?_, ?_, ?_⟩
    · simp [session.read_loop, hbad]
    · simp [stream_read_eq s bad hcb]
    · rw [stream_read_eq s bad hcb]
      cases s.on_message_handler_ <;> simp
    · rw [stream_read_eq s bad hcb]
      simp
    · rw [stream_read_eq s bad hcb]
      cases s.on_message_handler_ <;> simp
    · intro _ hb
      rw [stream_read_eq s bad hcb]
      simp [hb, close_events_of_no_close _ hb]
  | cons o os ih =>
    have ho : o.ec.failed = false := hok o (List.mem_cons_self _ _)
    have hos : ∀ x ∈ os, x.ec.failed = false := fun x hx => hok x (List.mem_cons_of_mem _ hx)
    have ht_h : ((s.stream_read o).dispatch o.buffer).on_message_handler_
        = s.on_message_handler_ := by
      rw [stream_read_eq s o hcb]
      unfold session.dispatch
      cases s.on_message_handler_ <;> simp [session.record]
    have ht_cb : ((s.stream_read o).dispatch o.buffer).stream_.has_control_callback = true := by
      rw [stream_read_eq s o hcb]
      unfold session.dispatch
      cases s.on_message_handler_ <;> simp [session.record, hcb]
    have ht_trace : ((s.stream_read o).dispatch o.buffer).trace
        = s.trace ++ event.read :: close_events o.control ++
          (match s.on_message_handler_ with
            | some h => [event.message h o.buffer]
            | none => []) := by
      rw [stream_read_eq s o hcb]
      unfold session.dispatch
      cases s.on_message_handler_ <;> simp [session.record]
    have ht_state : ((s.stream_read o).dispatch o.buffer).current_state_
        = if frame_type.close ∈ o.control then state.closed else s.current_state_ := by
      rw [stream_read_eq s o hcb]
      unfold session.dispatch
      cases s.on_message_handler_ <;> simp [session.record]
    obtain ⟨s1, h1, h2, h3, h4, h5, h6⟩ := ih ((s.stream_read o).dispatch o.buffer) ht_cb hos
    refine ⟨s1, ?_, ?_, ?_, ?_, ?_, ?_⟩
    · simp [session.read_loop, ho, h1]
    · rw [h2, ht_h]
    · rw [h3, ht_h, ht_trace]
      cases s.on_message_handler_ <;> simp
    · rw [h4, ht_trace]
      cases s.on_message_handler_ <;> simp <;> omega
    · rw [h5, ht_h, ht_trace]
      cases s.on_message_handler_ <;> simp
    · intro hno hb
      have hno1 : frame_type.close ∉ o.control := hno o (List.mem_cons_self _ _)
      have hno2 : ∀ x ∈ os, frame_type.close ∉ x.control :=
        fun x hx => hno x (List.mem_cons_of_mem _ hx)
      obtain ⟨h7, h8⟩ := h6 hno2 hb
      rw [h7, h8, ht_state, ht_trace, close_events_of_no_close _ hno1]
      cases s.on_message_handler_ <;> simp [hno1]


/-! ## Setup -/

/-- The setup part of `run` when every setup call succeeds: nothing is raised, the state is
`connected`, the control callback is installed, the stream is open, and the only
callback invoked is `state_changed(connected)`. -/
theorem run_setup_success (s : session) (env : setup_outcomes) (path : bytes)
    (hsetup : ∀ c ∈ setup_steps s.stream_.kind env, c.failed = false) :
    ∃ s1, s.run_setup env path = (s1, none) ∧
      s1.current_state_ = state.connected ∧
      s1.on_message_handler_ = s.on_message_handler_ ∧
      s1.stream_.has_control_callback = true ∧
      s1.stream_.is_open = true ∧
      state_changes s1.trace = state_changes s.trace ++ [state.connected] ∧
      handler_calls s1.trace = handler_calls s.trace ∧
      read_count s1.trace = read_count s.trace ∧
      reads_and_handler_calls s1.trace = reads_and_handler_calls s.trace := by
  rcases s with ⟨⟨k, op, cb⟩, h, st, t⟩
  cases k
  · simp only [setup_steps, List.mem_cons, List.mem_singleton, forall_eq_or_imp, forall_eq,
      List.not_mem_nil, false_implies, implies_true, and_true] at hsetup
    obtain ⟨h1, h2, h3⟩ := hsetup
    simp [session.run_setup, session.run_try, session.make_connection,
      session.make_connection_raw, session.set_current_state, session.record, h1, h2, h3]
  · simp only [setup_steps, List.mem_cons, List.mem_singleton, forall_eq_or_imp, forall_eq,
      List.not_mem_nil, false_implies, implies_true, and_true] at hsetup
    obtain ⟨h1, h2, h3, h4⟩ := hsetup
    simp [session.run_setup, session.run_try, session.make_connection,
      session.make_connection_tls, session.set_current_state, session.record, h1, h2, h3, h4]

/-! ## `run`: setup and the read loop -/

/-- C1: when a setup step of `run` (resolve, connect, the TLS handshake of a TLS stream, or the
websocket handshake) fails, `run` ends by raising the error of the first failing step
instead of returning a code; afterwards `current_state()` is `unknown`, `state_changed`
has been invoked exactly once more, with `unknown`, no read was issued, no read outcome
was consumed and the message handler was not invoked. -/
theorem run_setup_failure_raises (s : session) (env : setup_outcomes)
    (reads : List read_outcome) (path : bytes)
    (hfail : ∃ c ∈ setup_steps s.stream_.kind env, c.failed = true) :
    ∃ e r, (setup_steps s.stream_.kind env).find? error_code.failed = some e ∧
      s.run env reads path = some r ∧
      r.outcome = completion.raised e ∧
      r.session.current_state = state.unknown ∧
      state_changes r.session.trace = state_changes s.trace ++ [state.unknown] ∧
      read_count r.session.trace = read_count s.trace ∧
      handler_calls r.session.trace = handler_calls s.trace ∧
      r.unread = reads := by
  rcases s with ⟨⟨k, op, cb⟩, h, st, t⟩
  cases k
  · cases h1 : env.resolve.failed <;> cases h2 : env.connect.failed <;>
      cases h3 : env.handshake.failed <;>
      simp [setup_steps, h1, h2, h3, session.run, session.run_setup, session.run_try,
        session.make_connection, session.make_connection_raw, session.set_current_state,
        session.record, session.current_state] at hfail ⊢
  · cases h1 : env.resolve.failed <;> cases h2 : env.connect.failed <;>
      cases h3 : env.tls_handshake.failed <;> cases h4 : env.handshake.failed <;>
      simp [setup_steps, h1, h2, h3, h4, session.run, session.run_setup, session.run_try,
        session.make_connection, session.make_connection_tls, session.set_current_state,
        session.record, session.current_state] at hfail ⊢

/-- Witness for C1: a new session over a plain stream whose host cannot be reached. -/
theorem run_setup_failure_raises_witness :
    (∃ c ∈ setup_steps (session.create stream_kind.raw_stream).stream_.kind unreachable,
      c.failed = true) ∧
    ∃ e r, (setup_steps (session.create stream_kind.raw_stream).stream_.kind
        unreachable).find? error_code.failed = some e ∧
      (session.create stream_kind.raw_stream).run unreachable [hello_read] default_path
        = some r ∧
      r.outcome = completion.raised e ∧
      r.session.current_state = state.unknown ∧
      state_changes r.session.trace
        = state_changes (session.create stream_kind.raw_stream).trace ++ [state.unknown] ∧
      read_count r.session.trace = read_count (session.create stream_kind.raw_stream).trace ∧
      handler_calls r.session.trace
        = handler_calls (session.create stream_kind.raw_stream).trace ∧
      r.unread = [hello_read] :=
  ⟨by decide,
    run_setup_failure_raises (session.create stream_kind.raw_stream) unreachable [hello_read]
      default_path (by decide)⟩

/-- C2: when resolve, connect and the handshakes all succeed, the setup part of `run` ends
without raising, and the read loop starts from a session whose `current_state()` is
`connected`, on which `state_changed` has been invoked exactly once more, with
`connected` (so exactly once in all on a session where it had not been invoked), and on
which no read has been issued yet. -/
theorem run_setup_success_connected (s : session) (env : setup_outcomes)
    (reads : List read_outcome) (path : bytes)
    (hsetup : ∀ c ∈ setup_steps s.stream_.kind env, c.failed = false) :
    ∃ s1, s.run_setup env path = (s1, none) ∧
      s.run env reads path = (s1.read_loop reads).map
        (fun x => { session := x.1, outcome := completion.returned x.2.1, unread := x.2.2 }) ∧
      s1.current_state = state.connected ∧
      state_changes s1.trace = state_changes s.trace ++ [state.connected] ∧
      (state_changes s.trace = [] → state_changes s1.trace = [state.connected]) ∧
      read_count s1.trace = read_count s.trace := by
  obtain ⟨s1, h1, h2, _, _, _, h6, _, h8, _⟩ := run_setup_success s env path hsetup
  refine ⟨s1, h1, ?_, h2, h6, ?_, h8⟩
  · simp only [session.run, h1]
    cases s1.read_loop reads <;> rfl
  · intro h0
    rw [h6, h0]
    rfl

/-- Witness for C2: a newly constructed session over a TLS stream and a reachable server. -/
theorem run_setup_success_connected_witness :
    (session.create stream_kind.tls_stream).current_state = state.unknown ∧
    state_changes (session.create stream_kind.tls_stream).trace = [] ∧
    ∃ s1, (session.create stream_kind.tls_stream).run_setup reachable default_path
        = (s1, none) ∧
      (session.create stream_kind.tls_stream).run reachable [hello_read, peer_close_read]
          default_path
        = (s1.read_loop [hello_read, peer_close_read]).map
          (fun x => { session := x.1, outcome := completion.returned x.2.1, unread := x.2.2 }) ∧
      s1.current_state = state.connected ∧
      state_changes s1.trace
        = state_changes (session.create stream_kind.tls_stream).trace ++ [state.connected] ∧
      (state_changes (session.create stream_kind.tls_stream).trace = [] →
        state_changes s1.trace = [state.connected]) ∧
      read_count s1.trace = read_count (session.create stream_kind.tls_stream).trace :=
  ⟨rfl, rfl,
    run_setup_success_connected (session.create stream_kind.tls_stream) reachable
      [hello_read, peer_close_read] default_path (by decide)⟩

/-- C3: after a successful setup, with the handler `h` registered, against `n` successful
reads followed by a first failing read, `run` returns exactly the code of the failing
read; the handler was invoked exactly once per successful read, in read order, each time
with the buffer of that read and before the next read was issued; `n + 1` reads were
issued and the outcomes after the failing one were not consumed. -/
theorem run_delivers_messages_in_order (s : session) (env : setup_outcomes)
    (oks : List read_outcome) (bad : read_outcome) (rest : List read_outcome) (path : bytes)
    (h : Nat) (hhandler : s.on_message_handler_ = some h)
    (hsetup : ∀ c ∈ setup_steps s.stream_.kind env, c.failed = false)
    (hok : ∀ o ∈ oks, o.ec.failed = false) (hbad : bad.ec.failed = true) :
    ∃ r, s.run env (oks ++ bad :: rest) path = some r ∧
      r.outcome = completion.returned bad.ec ∧
      handler_calls r.session.trace
        = handler_calls s.trace ++ oks.map (fun o => (h, o.buffer)) ∧
      reads_and_handler_calls r.session.trace
        = reads_and_handler_calls s.trace
          ++ oks.flatMap (fun o => [event.read, event.message h o.buffer]) ++ [event.read] ∧
      read_count r.session.trace = read_count s.trace + (oks.length + 1) ∧
      r.unread = rest := by
  obtain ⟨s1, h1, _, h3, h4, _, _, h7, h8, h9⟩ := run_setup_success s env path hsetup
  obtain ⟨s2, l1, _, l3, l4, l5, _⟩ := read_loop_until_failure oks bad rest s1 h4 hok hbad
  refine ⟨{ session := s2, outcome := completion.returned bad.ec, unread := rest },
    ?_, rfl, ?_, ?_, ?_, rfl⟩
  · simp [session.run, h1, l1]
  · simp only [l3, h3, hhandler, h7]
  · simp only [l5, h3, hhandler, h9]
  · simp only [l4, h8]

/-- Witness for C3: the server sends `"hello"` and then closes. -/
theorem run_delivers_messages_in_order_witness :
    ∃ r, ((session.create stream_kind.raw_stream).on_message 7).run reachable
        ([hello_read] ++ peer_close_read :: [reset_read]) default_path = some r ∧
      r.outcome = completion.returned peer_close_read.ec ∧
      handler_calls r.session.trace
        = handler_calls ((session.create stream_kind.raw_stream).on_message 7).trace
          ++ [hello_read].map (fun o => (7, o.buffer)) ∧
      reads_and_handler_calls r.session.trace
        = reads_and_handler_calls ((session.create stream_kind.raw_stream).on_message 7).trace
          ++ [hello_read].flatMap (fun o => [event.read, event.message 7 o.buffer])
          ++ [event.read] ∧
      read_count r.session.trace
        = read_count ((session.create stream_kind.raw_stream).on_message 7).trace
          + ([hello_read].length + 1) ∧
      r.unread = [reset_read] :=
  run_delivers_messages_in_order ((session.create stream_kind.raw_stream).on_message 7)
    reachable [hello_read] peer_close_read [reset_read] default_path 7 rfl (by decide)
    (by decide) (by decide)

/-! ## The control callback, `close` and `send` -/

/-- C4: a control frame handed to the control callback of `run` records the state `closed` and
invokes `state_changed` once, with `closed`, when its kind is close; for any other kind
(ping, pong) the session, its state and its trace included, is left as it was. -/
theorem control_callback_records_close_only (s : session) (kind : frame_type) :
    (kind = frame_type.close →
        (s.control_callback kind).current_state = state.closed ∧
        (s.control_callback kind).trace = s.trace ++ [event.state_changed state.closed] ∧
        state_changes (s.control_callback kind).trace
          = state_changes s.trace ++ [state.closed]) ∧
    (kind ≠ frame_type.close → s.control_callback kind = s) := by
  constructor
  · intro h
    subst h
    simp [session.control_callback, session.set_current_state, session.record,
      session.current_state, state_changes]
  · intro h
    simp [session.control_callback, h]

/-- C5, as the code has it: on a connected session whose stream is open, `close()` issues one
close on the stream and returns the code that close produced; it records no transition:
`current_state()` is still `connected` and `state_changed` is not invoked. -/
theorem close_open_connected_keeps_state (s : session) (c : error_code)
    (hstate : s.current_state = state.connected) (hopen : s.stream_.is_open = true) :
    (s.close c).2 = completion.returned c ∧
    (s.close c).1.trace = s.trace ++ [event.stream_close] ∧
    (s.close c).1.stream_.is_open = false ∧
    (s.close c).1.current_state = state.connected ∧
    state_changes (s.close c).1.trace = state_changes s.trace := by
  simp only [session.current_state] at hstate
  simp [session.close, hopen, session.record, session.current_state, hstate, state_changes]

/-- Witness for C5 as the code has it: the session `run` leaves after a successful setup. -/
theorem close_open_connected_keeps_state_witness :
    (connected_session.close some_failure).2 = completion.returned some_failure ∧
    (connected_session.close some_failure).1.trace
      = connected_session.trace ++ [event.stream_close] ∧
    (connected_session.close some_failure).1.stream_.is_open = false ∧
    (connected_session.close some_failure).1.current_state = state.connected ∧
    state_changes (connected_session.close some_failure).1.trace
      = state_changes connected_session.trace :=
  close_open_connected_keeps_state connected_session some_failure (by decide) (by decide)

/-- C5 as stated fails: the session `run` leaves after a successful setup is connected and
its stream is open, yet after `close()` its state is not `closed` and `state_changed` has
not been invoked with `closed`. -/
theorem close_does_not_record_closed :
    connected_session.current_state = state.connected ∧
    connected_session.stream_.is_open = true ∧
    (connected_session.close error_code.success).1.current_state ≠ state.closed ∧
    state_changes (connected_session.close error_code.success).1.trace
      ≠ state_changes connected_session.trace ++ [state.closed] ∧
    state.closed ∉ state_changes (connected_session.close error_code.success).1.trace := by
  decide

/-- C6: on a session that was never connected (state `unknown`, stream not open) `close()`
returns the no-error code without raising and leaves the session untouched: no close is
issued on the stream and the state stays `unknown`. -/
theorem close_never_connected (s : session) (c : error_code)
    (hstate : s.current_state = state.unknown) (hopen : s.stream_.is_open = false) :
    s.close c = (s, completion.returned error_code.success) ∧
    (s.close c).1.current_state = state.unknown ∧
    stream_close_count (s.close c).1.trace = stream_close_count s.trace := by
  have h : s.close c = (s, completion.returned error_code.success) := by
    simp [session.close, hopen]
  rw [h]
  exact ⟨rfl, hstate, rfl⟩

/-- Witness for C6: a newly constructed session. -/
theorem close_never_connected_witness :
    (session.create stream_kind.tls_stream).close some_failure
      = (session.create stream_kind.tls_stream, completion.returned error_code.success) ∧
    ((session.create stream_kind.tls_stream).close some_failure).1.current_state
      = state.unknown ∧
    stream_close_count ((session.create stream_kind.tls_stream).close some_failure).1.trace
      = stream_close_count (session.create stream_kind.tls_stream).trace :=
  close_never_connected (session.create stream_kind.tls_stream) some_failure rfl rfl

/-- C7: calling `close()` twice in succession: whatever the session and whatever codes the
stream would produce, the second call returns the no-error code and leaves the session
exactly as the first call left it, so it issues no close on the stream and does not
invoke `state_changed`. -/
theorem close_twice_idempotent (s : session) (c1 c2 : error_code) :
    ((s.close c1).1.close c2).2 = completion.returned error_code.success ∧
    ((s.close c1).1.close c2).1 = (s.close c1).1 ∧
    stream_close_count ((s.close c1).1.close c2).1.trace
      = stream_close_count (s.close c1).1.trace ∧
    state_changes ((s.close c1).1.close c2).1.trace = state_changes (s.close c1).1.trace := by
  have h : (s.close c1).1.stream_.is_open = false := by
    unfold session.close
    split
    · simp [session.record]
    · simpa using ‹¬ s.stream_.is_open = true›
  have h2 : (s.close c1).1.close c2 = ((s.close c1).1, completion.returned error_code.success) := by
    generalize (s.close c1).1 = t at h
    simp [session.close, h]
  rw [h2]
  exact ⟨rfl, rfl, rfl, rfl⟩

/-- C8: `send(data)` returns exactly the code the stream write produced, whether success or
failure, without raising; the recorded state is unchanged and `state_changed` is not
invoked: the only event is the write of `data`. -/
theorem send_returns_write_code (s : session) (data : bytes) (w : write_outcome) :
    (s.send data w).2 = completion.returned w.ec ∧
    (s.send data w).1.current_state = s.current_state ∧
    state_changes (s.send data w).1.trace = state_changes s.trace ∧
    (s.send data w).1.trace = s.trace ++ [event.write data] := by
  simp [session.send, session.record, session.current_state, state_changes]


/-! ## `run`: no handler, and read failures -/

/-- C9: after a successful setup, with no handler registered, against `n` successful reads
followed by a first failing read, `run` still issues `n + 1` reads, one per message and
the failing one, invokes no message handler, ends by returning (not raising) the code of
the failing read, and that is the code it returns for the same outcomes once a handler
is registered. -/
theorem run_without_handler_drains (s : session) (env : setup_outcomes)
    (oks : List read_outcome) (bad : read_outcome) (rest : List read_outcome) (path : bytes)
    (hhandler : s.on_message_handler_ = none)
    (hsetup : ∀ c ∈ setup_steps s.stream_.kind env, c.failed = false)
    (hok : ∀ o ∈ oks, o.ec.failed = false) (hbad : bad.ec.failed = true) :
    ∃ r, s.run env (oks ++ bad :: rest) path = some r ∧
      r.outcome = completion.returned bad.ec ∧
      handler_calls r.session.trace = handler_calls s.trace ∧
      reads_and_handler_calls r.session.trace
        = reads_and_handler_calls s.trace ++ oks.map (fun _ => event.read) ++ [event.read] ∧
      read_count r.session.trace = read_count s.trace + (oks.length + 1) ∧
      r.unread = rest ∧
      ∀ h : Nat, ((s.on_message h).run env (oks ++ bad :: rest) path).map run_result.outcome
        = some (completion.returned bad.ec) := by
  obtain ⟨s1, h1, _, h3, h4, _, _, h7, h8, h9⟩ := run_setup_success s env path hsetup
  obtain ⟨s2, l1, _, l3, l4, l5, _⟩ := read_loop_until_failure oks bad rest s1 h4 hok hbad
  refine ⟨{ session := s2, outcome := completion.returned bad.ec, unread := rest },
    ?_, rfl, ?_, ?_, ?_, rfl, ?_⟩
  · simp [session.run, h1, l1]
  · simp only [l3, h3, hhandler, h7, List.append_nil]
  · simp only [l5, h3, hhandler, h9]
  · simp only [l4, h8]
  · intro h
    obtain ⟨t1, g1, _, _, g4, _⟩ := run_setup_success (s.on_message h) env path hsetup
    obtain ⟨t2, k1, _⟩ := read_loop_until_failure oks bad rest t1 g4 hok hbad
    simp [session.run, g1, k1]

/-- Witness for C9: no handler registered, the server sends `"hello"` and then closes. -/
theorem run_without_handler_drains_witness :
    ∃ r, (session.create stream_kind.tls_stream).run reachable
        ([hello_read, hello_read] ++ peer_close_read :: []) default_path = some r ∧
      r.outcome = completion.returned peer_close_read.ec ∧
      handler_calls r.session.trace
        = handler_calls (session.create stream_kind.tls_stream).trace ∧
      reads_and_handler_calls r.session.trace
        = reads_and_handler_calls (session.create stream_kind.tls_stream).trace
          ++ [hello_read, hello_read].map (fun _ => event.read) ++ [event.read] ∧
      read_count r.session.trace
        = read_count (session.create stream_kind.tls_stream).trace
          + ([hello_read, hello_read].length + 1) ∧
      r.unread = [] ∧
      ∀ h : Nat, (((session.create stream_kind.tls_stream).on_message h).run reachable
          ([hello_read, hello_read] ++ peer_close_read :: []) default_path).map
            run_result.outcome
        = some (completion.returned peer_close_read.ec) :=
  run_without_handler_drains (session.create stream_kind.tls_stream) reachable
    [hello_read, hello_read] peer_close_read [] default_path rfl (by decide) (by decide)
    (by decide)

/-- C10: after a successful setup, when the reads up to and including the first failing one
deliver no close control frame, the failing read records no transition: `run` returns its
code, `state_changed` has been invoked for the transition to `connected` only, and
`current_state()` is `connected`, the argument of the last `set_current_state` call,
whatever code the transport reported. -/
theorem read_failure_records_no_transition (s : session) (env : setup_outcomes)
    (oks : List read_outcome) (bad : read_outcome) (rest : List read_outcome) (path : bytes)
    (hsetup : ∀ c ∈ setup_steps s.stream_.kind env, c.failed = false)
    (hok : ∀ o ∈ oks, o.ec.failed = false) (hbad : bad.ec.failed = true)
    (hquiet : ∀ o ∈ oks, frame_type.close ∉ o.control)
    (hquiet_bad : frame_type.close ∉ bad.control) :
    ∃ r, s.run env (oks ++ bad :: rest) path = some r ∧
      r.outcome = completion.returned bad.ec ∧
      r.session.current_state = state.connected ∧
      state_changes r.session.trace = state_changes s.trace ++ [state.connected] ∧
      (state_changes r.session.trace).getLast? = some r.session.current_state := by
  obtain ⟨s1, h1, h2, _, h4, _, h6, _⟩ := run_setup_success s env path hsetup
  obtain ⟨s2, l1, _, _, _, _, l6⟩ := read_loop_until_failure oks bad rest s1 h4 hok hbad
  obtain ⟨l7, l8⟩ := l6 hquiet hquiet_bad
  have hst : s2.current_state = state.connected := by
    simp only [session.current_state, l7, h2]
  refine ⟨{ session := s2, outcome := completion.returned bad.ec, unread := rest },
    ?_, rfl, hst, ?_, ?_⟩
  · simp [session.run, h1, l1]
  · simp only [l8, h6]
  · simp only [l8, h6, hst, List.getLast?_concat]

/-- Witness for C10: one message, then the connection is reset without a close frame. -/
theorem read_failure_records_no_transition_witness :
    ∃ r, ((session.create stream_kind.raw_stream).on_message 3).run reachable
        ([hello_read] ++ reset_read :: [hello_read]) default_path = some r ∧
      r.outcome = completion.returned reset_read.ec ∧
      r.session.current_state = state.connected ∧
      state_changes r.session.trace
        = state_changes ((session.create stream_kind.raw_stream).on_message 3).trace
          ++ [state.connected] ∧
      (state_changes r.session.trace).getLast? = some r.session.current_state :=
  read_failure_records_no_transition ((session.create stream_kind.raw_stream).on_message 3)
    reachable [hello_read] reset_read [hello_read] default_path (by decide) (by decide)
    (by decide) (by decide) (by decide)

end websocket
end savanna
